import Mathlib

/-
Verification of the ClearSeas-web-catalog screenshot scripts.

The repository holds two near-duplicate Playwright scripts:

* src/enhanced-fix-hero-animation/jules-scratch/verification/verify_animation.py
  (the synchronous variant, function `run`), and
* src/enhanced-fix-hero-animation/verify.py
  (the asynchronous variant, coroutine `main`).

Each script is a straight line of browser-automation calls.  We embed each
script as a fixed list of instructions (`syncBody`, `asyncBody`), one
instruction per library call, carrying the literal arguments of the source.
An `Env` records, for each kind of fallible call, whether the external world
lets it succeed, together with the page content the browser would render.
`execBody` runs the instruction list until the first failure, producing the
list of attempted operations tagged with success; `runScript` wraps this in
the `with`-statement scaffolding of the scripts (the context manager exit
runs on every path, normal or exceptional, per Python semantics) and yields
the process exit code.  Filesystem effects are modelled by `runFS`.
-/

namespace ClearSeas

/-- Browser engines exposed by the automation library; both scripts select
`chromium` (`playwright.chromium.launch()` / `p.chromium.launch()`). -/
inductive Engine
  | chromium
  | firefox
  | webkit
deriving DecidableEq, Repr

/-- One browser-automation library call, with the literal arguments the
scripts pass.  `launch` records the engine and the effective headless flag
(`launch()` is called with no arguments in both scripts, and the library
default for a bare launch is headless). -/
inductive Instr
  | launch (engine : Engine) (headless : Bool)
  | newPage
  | goto (url : String)
  | evaluate (script : String)
  | waitForTimeout (ms : Nat)
  | asyncioSleep (sec : Nat)
  | screenshot (path : String)
  | closeBrowser
deriving DecidableEq, Repr

/-- The hardcoded target URL, line 6 of verify_animation.py and line 8 of
verify.py. -/
def targetURL : String := "http://localhost:8000"

/-- Output path literal of the synchronous variant, verify_animation.py
line 8. -/
def syncOutputPath : String := "jules-scratch/verification/verification.png"

/-- Output path literal of the asynchronous variant, verify.py line 11. -/
def asyncOutputPath : String := "verification.png"

/-- The script string passed to `page.evaluate`, verify.py line 9. -/
def scrollScript : String := "window.scrollTo(0, 1000)"

/-- Body of `run(playwright)` in verify_animation.py, lines 4 to 9:
launch, new_page, goto, wait_for_timeout(5000), screenshot, close. -/
def syncBody : List Instr :=
  [ Instr.launch Engine.chromium true
  , Instr.newPage
  , Instr.goto targetURL
  , Instr.waitForTimeout 5000
  , Instr.screenshot syncOutputPath
  , Instr.closeBrowser ]

/-- Body of `main()` in verify.py, lines 6 to 12:
launch, new_page, goto, evaluate(scroll), asyncio.sleep(2), screenshot,
close. -/
def asyncBody : List Instr :=
  [ Instr.launch Engine.chromium true
  , Instr.newPage
  , Instr.goto targetURL
  , Instr.evaluate scrollScript
  , Instr.asyncioSleep 2
  , Instr.screenshot asyncOutputPath
  , Instr.closeBrowser ]

/-- The external world a run faces: for each kind of fallible library call,
whether the call succeeds, plus the content the page renders (what a
screenshot would capture).  The scripts never inspect any of this. -/
structure Env where
  launchOk : Bool
  newPageOk : Bool
  gotoOk : Bool
  evaluateOk : Bool
  screenshotOk : Bool
  closeOk : Bool
  rendered : String
deriving Repr

/-- Whether the environment lets a given instruction succeed.  The fixed
delays (`wait_for_timeout`, `asyncio.sleep`) cannot fail. -/
def instrOk (e : Env) : Instr → Bool
  | Instr.launch _ _ => e.launchOk
  | Instr.newPage => e.newPageOk
  | Instr.goto _ => e.gotoOk
  | Instr.evaluate _ => e.evaluateOk
  | Instr.waitForTimeout _ => true
  | Instr.asyncioSleep _ => true
  | Instr.screenshot _ => e.screenshotOk
  | Instr.closeBrowser => e.closeOk

/-- Run a straight-line body: each instruction is attempted in order; a
failing call raises, so it is the last attempted one and nothing after it
runs.  Each attempted instruction is tagged with whether it succeeded. -/
def execBody (e : Env) : List Instr → List (Instr × Bool)
  | [] => []
  | i :: rest =>
    if instrOk e i then (i, true) :: execBody e rest else [(i, false)]

/-- A run succeeded iff every attempted call succeeded. -/
def runOk (evs : List (Instr × Bool)) : Bool :=
  evs.all fun p => p.2

/-- Outcome of one process run: the attempted calls in order with their
success, whether the `with`-statement exit handler ran (stopping the
playwright driver, which closes every browser it launched), and the process
exit code. -/
structure RunResult where
  events : List (Instr × Bool)
  contextExited : Bool
  exitCode : Nat
deriving Repr

/-- Execute a script body inside `with sync_playwright()` /
`async with async_playwright()`.  Python guarantees the context manager
exit handler runs on normal and exceptional exit alike, so
`contextExited` is unconditionally true; an uncaught exception makes the
interpreter exit with status 1, a clean run exits 0. -/
def runScript (body : List Instr) (e : Env) : RunResult :=
  let evs := execBody e body
  { events := evs
  , contextExited := true
  , exitCode := if runOk evs then 0 else 1 }

/-- One run of the synchronous variant verify_animation.py. -/
def syncRun (e : Env) : RunResult := runScript syncBody e

/-- One run of the asynchronous variant verify.py. -/
def asyncRun (e : Env) : RunResult := runScript asyncBody e

/-- The attempted operations of a run, in order. -/
def trace (r : RunResult) : List Instr := r.events.map Prod.fst

/-- The operations of a run that completed successfully. -/
def executed (r : RunResult) : List Instr :=
  (r.events.filter fun p => p.2).map Prod.fst

/-- Process entry of verify_animation.py, lines 11 to 12
(`with sync_playwright() as playwright: run(playwright)`).  The script
reads neither `sys.argv` nor `os.environ`, so the entry ignores both. -/
def syncMain (_argv : List String) (_osEnv : String → Option String)
    (e : Env) : RunResult := syncRun e

/-- Process entry of verify.py, lines 14 to 15
(`asyncio.run(main())`).  The script reads neither `sys.argv` nor
`os.environ`, so the entry ignores both. -/
def asyncMain (_argv : List String) (_osEnv : String → Option String)
    (e : Env) : RunResult := asyncRun e

/-- The browser resource of a run is released: either the explicit
`browser.close()` completed, or the scoped playwright context exited
(stopping the driver closes all browsers launched through it). -/
def browserReleased (r : RunResult) : Prop :=
  Instr.closeBrowser ∈ executed r ∨ r.contextExited = true

/-- A filesystem: each path maps to the content stored there, if any. -/
def FS := String → Option String

/-- Effect of one attempted call on the filesystem: a successful
`page.screenshot(path=p)` persists the rendered page at `p`, overwriting
whatever was there; every other call leaves the filesystem unchanged. -/
def applyInstr (e : Env) (fs : FS) : Instr × Bool → FS
  | (Instr.screenshot p, true) => fun q => if q = p then some e.rendered else fs q
  | _ => fs

/-- Filesystem after one run of a script body in environment `e`. -/
def runFS (body : List Instr) (e : Env) (fs : FS) : FS :=
  (execBody e body).foldl (applyInstr e) fs

/-- Every step of the run succeeded. -/
def allOk (e : Env) : Prop :=
  e.launchOk = true ∧ e.newPageOk = true ∧ e.gotoOk = true ∧
  e.evaluateOk = true ∧ e.screenshotOk = true ∧ e.closeOk = true

instance (e : Env) : Decidable (allOk e) := by
  unfold allOk; infer_instance

/-- An all-success environment used by witnesses. -/
def envAll : Env :=
  { launchOk := true, newPageOk := true, gotoOk := true, evaluateOk := true
  , screenshotOk := true, closeOk := true, rendered := "pixels" }

/-- An environment in which navigation fails and everything else would
succeed, used by witnesses for the failure claims. -/
def envGotoFail : Env :=
  { launchOk := true, newPageOk := true, gotoOk := false, evaluateOk := true
  , screenshotOk := true, closeOk := true, rendered := "pixels" }

/-- Recognises the navigation call. -/
def isGoto : Instr → Bool
  | Instr.goto _ => true
  | _ => false

/-- Recognises either fixed-delay call. -/
def isWait : Instr → Bool
  | Instr.waitForTimeout _ => true
  | Instr.asyncioSleep _ => true
  | _ => false

/-- Recognises the screenshot call. -/
def isShot : Instr → Bool
  | Instr.screenshot _ => true
  | _ => false

/-- Recognises the browser launch call. -/
def isLaunch : Instr → Bool
  | Instr.launch _ _ => true
  | _ => false

/-- Duration of a delay instruction in milliseconds: `wait_for_timeout`
takes milliseconds, `asyncio.sleep` takes seconds. -/
def durationMs : Instr → Nat
  | Instr.waitForTimeout ms => ms
  | Instr.asyncioSleep s => s * 1000
  | _ => 0

/-- The URL argument of a navigation call, if the instruction is one. -/
def urlOf : Instr → Option String
  | Instr.goto u => some u
  | _ => none

/-- The path argument of a screenshot call, if the instruction is one. -/
def pathOf : Instr → Option String
  | Instr.screenshot p => some p
  | _ => none

/-- Whether an instruction succeeds depends only on the six success flags of
the environment, never on the rendered content. -/
theorem instrOk_flags_eq (e1 e2 : Env) (h1 : e1.launchOk = e2.launchOk)
    (h2 : e1.newPageOk = e2.newPageOk) (h3 : e1.gotoOk = e2.gotoOk)
    (h4 : e1.evaluateOk = e2.evaluateOk)
    (h5 : e1.screenshotOk = e2.screenshotOk) (h6 : e1.closeOk = e2.closeOk)
    (i : Instr) : instrOk e1 i = instrOk e2 i := by
  cases i <;> simp [instrOk, h1, h2, h3, h4, h5, h6]

/-- Two environments with the same success flags drive any body through the
same attempted calls with the same outcomes. -/
theorem execBody_flags_eq (e1 e2 : Env) (h1 : e1.launchOk = e2.launchOk)
    (h2 : e1.newPageOk = e2.newPageOk) (h3 : e1.gotoOk = e2.gotoOk)
    (h4 : e1.evaluateOk = e2.evaluateOk)
    (h5 : e1.screenshotOk = e2.screenshotOk) (h6 : e1.closeOk = e2.closeOk)
    (body : List Instr) : execBody e1 body = execBody e2 body := by
  induction body with
  | nil => rfl
  | cons i rest ih =>
    simp only [execBody]
    rw [instrOk_flags_eq e1 e2 h1 h2 h3 h4 h5 h6 i]
    split
    · rw [ih]
    · rfl

/-- The attempted calls of a run form an initial segment of the script
body: execution is single-path and sequential, stopping at the first
failure. -/
theorem execBody_isPrefixOf (e : Env) (body : List Instr) :
    ((execBody e body).map Prod.fst).isPrefixOf body = true := by
  induction body with
  | nil => rfl
  | cons i rest ih =>
    simp only [execBody]
    split
    · simpa [List.isPrefixOf] using ih
    · simp [List.isPrefixOf]

/-- C1 counterexample: the claim as frozen quantifies over every run, but a
run in which navigation fails performs only a proper initial segment of the
contracted sequence — the wait, screenshot and close are never attempted —
so neither variant's trace equals the contracted sequence at the
navigation-failure environment. -/
theorem c1_counterexample :
    trace (syncRun envGotoFail) ≠
      [ Instr.launch Engine.chromium true, Instr.newPage,
        Instr.goto "http://localhost:8000", Instr.waitForTimeout 5000,
        Instr.screenshot "jules-scratch/verification/verification.png",
        Instr.closeBrowser ] ∧
    trace (asyncRun envGotoFail) ≠
      [ Instr.launch Engine.chromium true, Instr.newPage,
        Instr.goto "http://localhost:8000",
        Instr.evaluate "window.scrollTo(0, 1000)", Instr.asyncioSleep 2,
        Instr.screenshot "verification.png", Instr.closeBrowser ] := by
  decide

/-- C1 (amended): a successful run of either variant — one in which every
external call succeeds — attempts exactly the contracted sequence: launch
browser, open page, navigate to the target URL, scroll (async variant
only), fixed wait, one screenshot to the configured path, close browser —
in that order with no other operations. -/
theorem c1_exact_operation_sequence (e : Env) (h : allOk e) :
    trace (syncRun e) =
      [ Instr.launch Engine.chromium true, Instr.newPage,
        Instr.goto "http://localhost:8000", Instr.waitForTimeout 5000,
        Instr.screenshot "jules-scratch/verification/verification.png",
        Instr.closeBrowser ] ∧
    trace (asyncRun e) =
      [ Instr.launch Engine.chromium true, Instr.newPage,
        Instr.goto "http://localhost:8000",
        Instr.evaluate "window.scrollTo(0, 1000)", Instr.asyncioSleep 2,
        Instr.screenshot "verification.png", Instr.closeBrowser ] := by
  obtain ⟨hl, hn, hg, hv, hs, hc⟩ := h
  constructor <;>
    simp [syncRun, asyncRun, runScript, trace, execBody, instrOk, syncBody,
      asyncBody, targetURL, syncOutputPath, asyncOutputPath, scrollScript,
      hl, hn, hg, hv, hs, hc]

/-- Witness for C1 at the all-success environment. -/
theorem c1_witness :
    trace (syncRun envAll) =
      [ Instr.launch Engine.chromium true, Instr.newPage,
        Instr.goto "http://localhost:8000", Instr.waitForTimeout 5000,
        Instr.screenshot "jules-scratch/verification/verification.png",
        Instr.closeBrowser ] ∧
    trace (asyncRun envAll) =
      [ Instr.launch Engine.chromium true, Instr.newPage,
        Instr.goto "http://localhost:8000",
        Instr.evaluate "window.scrollTo(0, 1000)", Instr.asyncioSleep 2,
        Instr.screenshot "verification.png", Instr.closeBrowser ] :=
  c1_exact_operation_sequence envAll (by decide)

/-- C2: the browser resource is released on every exit path of either
variant; when navigation fails the explicit `browser.close()` call is never
reached, yet the resource is still released because the playwright
acquisition is scoped by a `with` statement whose exit handler always
runs. -/
theorem c2_browser_released_on_all_paths (e : Env) :
    browserReleased (syncRun e) ∧ browserReleased (asyncRun e) ∧
    (e.gotoOk = false →
      Instr.closeBrowser ∉ trace (syncRun e) ∧
      Instr.closeBrowser ∉ trace (asyncRun e)) := by
  refine ⟨Or.inr rfl, Or.inr rfl, fun hg => ?_⟩
  obtain ⟨l, n, g, v, s, c, r⟩ := e
  simp only at hg
  subst hg
  cases l <;> cases n <;>
    simp [syncRun, asyncRun, runScript, trace, execBody, instrOk, syncBody,
      asyncBody]

/-- Witness for C2 at an environment where navigation fails. -/
theorem c2_witness :
    browserReleased (syncRun envGotoFail) ∧
    browserReleased (asyncRun envGotoFail) ∧
    Instr.closeBrowser ∉ trace (syncRun envGotoFail) ∧
    Instr.closeBrowser ∉ trace (asyncRun envGotoFail) :=
  ⟨(c2_browser_released_on_all_paths envGotoFail).1,
   (c2_browser_released_on_all_paths envGotoFail).2.1,
   (c2_browser_released_on_all_paths envGotoFail).2.2 rfl⟩

/-- C3: when navigation fails (launch and page creation having succeeded),
either variant aborts: the process exit status is non-zero and the
navigation call is attempted exactly once — no retry. -/
theorem c3_navigation_failure_aborts (e : Env) (hl : e.launchOk = true)
    (hn : e.newPageOk = true) (hg : e.gotoOk = false) :
    (syncRun e).exitCode ≠ 0 ∧ (asyncRun e).exitCode ≠ 0 ∧
    ((trace (syncRun e)).filter isGoto).length = 1 ∧
    ((trace (asyncRun e)).filter isGoto).length = 1 := by
  refine ⟨?_, ?_, ?_, ?_⟩ <;>
    simp [syncRun, asyncRun, runScript, trace, execBody, instrOk, runOk,
      syncBody, asyncBody, isGoto, hl, hn, hg]

/-- Witness for C3 at an environment where navigation fails. -/
theorem c3_witness :
    (syncRun envGotoFail).exitCode ≠ 0 ∧
    (asyncRun envGotoFail).exitCode ≠ 0 ∧
    ((trace (syncRun envGotoFail)).filter isGoto).length = 1 ∧
    ((trace (asyncRun envGotoFail)).filter isGoto).length = 1 :=
  c3_navigation_failure_aborts envGotoFail rfl rfl rfl

/-- C4: when navigation fails, the screenshot call is never attempted in
either variant and the filesystem is left completely unchanged by the
run. -/
theorem c4_no_output_on_navigation_failure (e : Env) (fs : FS)
    (hg : e.gotoOk = false) :
    (trace (syncRun e)).filter isShot = [] ∧
    (trace (asyncRun e)).filter isShot = [] ∧
    runFS syncBody e fs = fs ∧ runFS asyncBody e fs = fs := by
  obtain ⟨l, n, g, v, s, c, r⟩ := e
  simp only at hg
  subst hg
  cases l <;> cases n <;>
    refine ⟨?_, ?_, ?_, ?_⟩ <;>
    simp [syncRun, asyncRun, runScript, trace, runFS, execBody, instrOk,
      syncBody, asyncBody, isShot, applyInstr]

/-- Witness for C4 at an environment where navigation fails, over the empty
filesystem. -/
theorem c4_witness :
    (trace (syncRun envGotoFail)).filter isShot = [] ∧
    (trace (asyncRun envGotoFail)).filter isShot = [] ∧
    runFS syncBody envGotoFail (fun _ => none) = (fun _ => none) ∧
    runFS asyncBody envGotoFail (fun _ => none) = (fun _ => none) :=
  c4_no_output_on_navigation_failure envGotoFail (fun _ => none) rfl

/-- C5: neither variant reads command-line arguments or environment
variables — the run is the same function of the external world for every
invocation — and the navigation URL and screenshot path occurring in each
script are the fixed literals of the source. -/
theorem c5_no_invocation_inputs :
    (∀ (a1 a2 : List String) (v1 v2 : String → Option String) (e : Env),
      syncMain a1 v1 e = syncMain a2 v2 e ∧
      asyncMain a1 v1 e = asyncMain a2 v2 e) ∧
    syncBody.filterMap urlOf = ["http://localhost:8000"] ∧
    asyncBody.filterMap urlOf = ["http://localhost:8000"] ∧
    syncBody.filterMap pathOf = ["jules-scratch/verification/verification.png"] ∧
    asyncBody.filterMap pathOf = ["verification.png"] :=
  ⟨fun _ _ _ _ _ => ⟨rfl, rfl⟩, rfl, rfl, rfl, rfl⟩

/-- C6: each variant contains exactly one delay call, a single fixed
duration with no polling: `wait_for_timeout(5000)` (5 seconds) in the
synchronous variant, `asyncio.sleep(2)` (2 seconds) in the asynchronous
variant. -/
theorem c6_single_fixed_delay :
    syncBody.filter isWait = [Instr.waitForTimeout 5000] ∧
    asyncBody.filter isWait = [Instr.asyncioSleep 2] ∧
    durationMs (Instr.waitForTimeout 5000) = 5 * 1000 ∧
    durationMs (Instr.asyncioSleep 2) = 2 * 1000 :=
  ⟨rfl, rfl, rfl, rfl⟩

/-- C7: in the scroll (asynchronous) variant, the scroll instruction sits
strictly before the fixed wait, which sits strictly before the screenshot,
both in the script body and in the attempted trace of any run that reaches
the screenshot. -/
theorem c7_scroll_before_wait_and_capture :
    asyncBody.indexOf (Instr.evaluate scrollScript) <
      asyncBody.indexOf (Instr.asyncioSleep 2) ∧
    asyncBody.indexOf (Instr.asyncioSleep 2) <
      asyncBody.indexOf (Instr.screenshot asyncOutputPath) ∧
    ∀ e : Env, Instr.screenshot asyncOutputPath ∈ trace (asyncRun e) →
      (trace (asyncRun e)).indexOf (Instr.evaluate scrollScript) <
        (trace (asyncRun e)).indexOf (Instr.screenshot asyncOutputPath) := by
  refine ⟨by decide, by decide, fun e => ?_⟩
  obtain ⟨l, n, g, v, s, c, r⟩ := e
  have htr : trace (asyncRun ⟨l, n, g, v, s, c, r⟩) =
      trace (asyncRun ⟨l, n, g, v, s, c, "x"⟩) := by
    simp only [asyncRun, runScript, trace]
    rw [execBody_flags_eq ⟨l, n, g, v, s, c, r⟩ ⟨l, n, g, v, s, c, "x"⟩
      rfl rfl rfl rfl rfl rfl]
  rw [htr]
  cases l <;> cases n <;> cases g <;> cases v <;> cases s <;> cases c <;>
    decide

/-- Witness for C7 at the all-success environment. -/
theorem c7_witness :
    (trace (asyncRun envAll)).indexOf (Instr.evaluate scrollScript) <
      (trace (asyncRun envAll)).indexOf (Instr.screenshot asyncOutputPath) :=
  c7_scroll_before_wait_and_capture.2.2 envAll (by decide)

/-- C8: a successful run of either variant executes exactly one screenshot
call, at the configured output path; the write overwrites whatever the
filesystem held at that path, and running the script twice yields the same
filesystem as running it once. -/
theorem c8_single_overwrite_idempotent (e : Env) (fs : FS) (h : allOk e) :
    (executed (syncRun e)).filter isShot =
      [Instr.screenshot syncOutputPath] ∧
    (executed (asyncRun e)).filter isShot =
      [Instr.screenshot asyncOutputPath] ∧
    runFS syncBody e fs syncOutputPath = some e.rendered ∧
    runFS asyncBody e fs asyncOutputPath = some e.rendered ∧
    runFS syncBody e (runFS syncBody e fs) = runFS syncBody e fs ∧
    runFS asyncBody e (runFS asyncBody e fs) = runFS asyncBody e fs := by
  obtain ⟨hl, hn, hg, hv, hs, hc⟩ := h
  have hsync : ∀ f : FS, runFS syncBody e f =
      fun q => if q = syncOutputPath then some e.rendered else f q := by
    intro f
    simp [runFS, execBody, instrOk, syncBody, applyInstr, hl, hn, hg, hs, hc]
  have hasync : ∀ f : FS, runFS asyncBody e f =
      fun q => if q = asyncOutputPath then some e.rendered else f q := by
    intro f
    simp [runFS, execBody, instrOk, asyncBody, applyInstr, hl, hn, hg, hv,
      hs, hc]
  refine ⟨?_, ?_, ?_, ?_, ?_, ?_⟩
  · simp [syncRun, runScript, executed, execBody, instrOk, syncBody, isShot,
      hl, hn, hg, hs, hc]
  · simp [asyncRun, runScript, executed, execBody, instrOk, asyncBody,
      isShot, hl, hn, hg, hv, hs, hc]
  · rw [hsync]; simp
  · rw [hasync]; simp
  · rw [hsync, hsync]
    funext q
    by_cases hq : q = syncOutputPath <;> simp [hq]
  · rw [hasync, hasync]
    funext q
    by_cases hq : q = asyncOutputPath <;> simp [hq]

/-- Witness for C8 at the all-success environment over the empty
filesystem. -/
theorem c8_witness :
    (executed (syncRun envAll)).filter isShot =
      [Instr.screenshot syncOutputPath] ∧
    (executed (asyncRun envAll)).filter isShot =
      [Instr.screenshot asyncOutputPath] ∧
    runFS syncBody envAll (fun _ => none) syncOutputPath =
      some envAll.rendered ∧
    runFS asyncBody envAll (fun _ => none) asyncOutputPath =
      some envAll.rendered ∧
    runFS syncBody envAll (runFS syncBody envAll (fun _ => none)) =
      runFS syncBody envAll (fun _ => none) ∧
    runFS asyncBody envAll (runFS asyncBody envAll (fun _ => none)) =
      runFS asyncBody envAll (fun _ => none) :=
  c8_single_overwrite_idempotent envAll (fun _ => none) (by decide)

/-- C9: each variant is single-path and sequential — the attempted trace is
always an initial segment of the fixed script body — and the emitted events
are fully determined by which external calls succeed, independent of any
response content such as the rendered page. -/
theorem c9_deterministic_sequential_trace (e1 e2 : Env)
    (h1 : e1.launchOk = e2.launchOk) (h2 : e1.newPageOk = e2.newPageOk)
    (h3 : e1.gotoOk = e2.gotoOk) (h4 : e1.evaluateOk = e2.evaluateOk)
    (h5 : e1.screenshotOk = e2.screenshotOk)
    (h6 : e1.closeOk = e2.closeOk) :
    (syncRun e1).events = (syncRun e2).events ∧
    (asyncRun e1).events = (asyncRun e2).events ∧
    (trace (syncRun e1)).isPrefixOf syncBody = true ∧
    (trace (asyncRun e1)).isPrefixOf asyncBody = true := by
  refine ⟨?_, ?_, ?_, ?_⟩
  · simp only [syncRun, runScript]
    rw [execBody_flags_eq e1 e2 h1 h2 h3 h4 h5 h6]
  · simp only [asyncRun, runScript]
    rw [execBody_flags_eq e1 e2 h1 h2 h3 h4 h5 h6]
  · simpa [syncRun, runScript, trace] using execBody_isPrefixOf e1 syncBody
  · simpa [asyncRun, runScript, trace] using execBody_isPrefixOf e1 asyncBody

/-- Witness for C9: two environments that differ only in the rendered page
content produce identical event traces. -/
theorem c9_witness :
    (syncRun envAll).events =
      (syncRun { envAll with rendered := "otherPixels" }).events ∧
    (asyncRun envAll).events =
      (asyncRun { envAll with rendered := "otherPixels" }).events ∧
    (trace (syncRun envAll)).isPrefixOf syncBody = true ∧
    (trace (asyncRun envAll)).isPrefixOf asyncBody = true :=
  c9_deterministic_sequential_trace envAll
    { envAll with rendered := "otherPixels" } rfl rfl rfl rfl rfl rfl

/-- C10: every run of either variant begins by launching the Chromium
engine with the default headless option, and that launch call is the only
one in either script — the engine is fixed, not configurable. -/
theorem c10_chromium_default_launch (e : Env) :
    (trace (syncRun e)).head? = some (Instr.launch Engine.chromium true) ∧
    (trace (asyncRun e)).head? = some (Instr.launch Engine.chromium true) ∧
    syncBody.filter isLaunch = [Instr.launch Engine.chromium true] ∧
    asyncBody.filter isLaunch = [Instr.launch Engine.chromium true] := by
  obtain ⟨l, n, g, v, s, c, r⟩ := e
  refine ⟨?_, ?_, rfl, rfl⟩ <;> cases l <;> rfl

end ClearSeas
